import Mathlib

/-!
# Verification of the `lxc_autoscale` scaling engine

A shallow embedding, in Lean 4, of the control-loop and scaling engine of the
`proxmox-lxc-autoscale` repository (the modular daemon under
`src/lxc_autoscale/`: `scaling_manager.py`, `resource_manager.py`,
`lxc_utils.py`, `config.py`).

Modelling conventions:

* Python `float` values (usage percentages, thresholds, the behaviour
  multiplier, the scaling constants `CPU_SCALE_DIVISOR` and
  `MEMORY_SCALE_FACTOR`) are modelled as exact fractions (`Frac` below).
  Every fraction the embedding constructs has a positive denominator;
  comparisons normalise the sign of the denominator so that they form a total
  preorder on all of `Frac`.
* Python `int` values (container ids, core counts, memory sizes in MiB,
  timestamps in seconds, hours) are modelled as `ℤ`.  Python's `int(x)`
  truncation of a nonnegative or negative float towards zero is `pyInt`.
* Container ids are numeric strings in the source (`"101"`); they are
  modelled directly as the corresponding integers.
* `run_command` (the executor: local `subprocess` or a remote shell) is
  modelled as an oracle `exec : Cmd → Option String`: `none` is a failed
  command (timeout, non-zero exit, transport failure — `run_command` returns
  `None` in all three cases), `some s` is the stripped stdout.  Python
  truthiness of the result (`if run_command(...)`) is `py_truthy`, which is
  false for `None` and for the empty string.
* Side effects are made explicit: each embedded operation returns, next to
  its value, the list of issued commands paired with the oracle's reply
  (`trace`), the JSON event-log records it appends (`events`, the
  `log_json_event` / `log_scaling_event` calls), and, for the data-collection
  functions, the list of backup records written to the state store.
* The wall clock (`datetime.now()`) is threaded as explicit parameters:
  the current hour for the off-peak logic and an integer timestamp (seconds)
  for the horizontal-scaling grace periods.
-/

/-- An exact fraction: the model of a Python `float` value.  `num / den`,
where every fraction built by the embedding has `den > 0`.  Kept unreduced so
that all arithmetic is plain integer arithmetic. -/
structure Frac where
  num : ℤ
  den : ℤ
deriving DecidableEq, Repr

namespace Frac

/-- Embed an integer as a fraction. -/
def ofInt (n : ℤ) : Frac := ⟨n, 1⟩

/-- Addition: `a/b + c/d = (a*d + c*b)/(b*d)`. -/
def add (x y : Frac) : Frac := ⟨x.num * y.den + y.num * x.den, x.den * y.den⟩

/-- Subtraction: `a/b - c/d = (a*d - c*b)/(b*d)`. -/
def sub (x y : Frac) : Frac := ⟨x.num * y.den - y.num * x.den, x.den * y.den⟩

/-- Multiplication. -/
def mul (x y : Frac) : Frac := ⟨x.num * y.num, x.den * y.den⟩

/-- Division: `(a/b) / (c/d) = (a*d)/(b*c)`.  The result's denominator is
positive whenever both inputs have positive denominator and the divisor is
positive, which is the case at every division site of the embedding
(the scale divisors, `100`, and the nonempty group size). -/
def div (x y : Frac) : Frac := ⟨x.num * y.den, x.den * y.num⟩

/-- Numerator after normalising the denominator's sign to be positive
(a fraction with denominator `0` is treated as `0/1`). -/
def keyNum (x : Frac) : ℤ :=
  if x.den = 0 then 0 else if x.den < 0 then -x.num else x.num

/-- Denominator after normalising its sign to be positive. -/
def keyDen (x : Frac) : ℤ :=
  if x.den = 0 then 1 else if x.den < 0 then -x.den else x.den

/-- Strict comparison of the rational values (cross multiplication). -/
def blt (x y : Frac) : Bool := decide (x.keyNum * y.keyDen < y.keyNum * x.keyDen)

/-- Non-strict comparison of the rational values. -/
def ble (x y : Frac) : Bool := decide (x.keyNum * y.keyDen ≤ y.keyNum * x.keyDen)

/-- Equality of the rational values (not of representations). -/
def veq (x y : Frac) : Bool := decide (x.keyNum * y.keyDen = y.keyNum * x.keyDen)

theorem keyDen_pos (x : Frac) : 0 < x.keyDen := by
  unfold keyDen
  split
  · exact one_pos
  · split <;> omega

theorem ble_total (x y : Frac) : x.ble y || y.ble x := by
  simp only [ble, Bool.or_eq_true, decide_eq_true_eq]
  omega

theorem veq_symm {x y : Frac} (h : x.veq y = true) : y.veq x = true := by
  simp only [veq, decide_eq_true_eq] at *
  omega

theorem blt_trans {x y z : Frac} (h1 : x.blt y = true) (h2 : y.blt z = true) :
    x.blt z = true := by
  simp only [blt, decide_eq_true_eq] at *
  nlinarith [keyDen_pos x, keyDen_pos y, keyDen_pos z,
    mul_lt_mul_of_pos_right h1 (keyDen_pos z),
    mul_lt_mul_of_pos_right h2 (keyDen_pos x)]

theorem ble_trans {x y z : Frac} (h1 : x.ble y = true) (h2 : y.ble z = true) :
    x.ble z = true := by
  simp only [ble, decide_eq_true_eq] at *
  nlinarith [keyDen_pos x, keyDen_pos y, keyDen_pos z,
    mul_le_mul_of_nonneg_right h1 (le_of_lt (keyDen_pos z)),
    mul_le_mul_of_nonneg_right h2 (le_of_lt (keyDen_pos x))]

theorem blt_of_veq_of_blt {x y z : Frac} (h1 : x.veq y = true) (h2 : y.blt z = true) :
    x.blt z = true := by
  simp only [veq, blt, decide_eq_true_eq] at *
  nlinarith [keyDen_pos x, keyDen_pos y, keyDen_pos z,
    mul_lt_mul_of_pos_right h2 (keyDen_pos x)]

theorem blt_of_blt_of_veq {x y z : Frac} (h1 : x.blt y = true) (h2 : y.veq z = true) :
    x.blt z = true := by
  simp only [veq, blt, decide_eq_true_eq] at *
  nlinarith [keyDen_pos x, keyDen_pos y, keyDen_pos z,
    mul_lt_mul_of_pos_right h1 (keyDen_pos z)]

theorem veq_trans {x y z : Frac} (h1 : x.veq y = true) (h2 : y.veq z = true) :
    x.veq z = true := by
  simp only [veq, decide_eq_true_eq] at *
  have hy := keyDen_pos y
  nlinarith [keyDen_pos x, keyDen_pos z]

theorem blt_or_veq_or_blt (x y : Frac) :
    x.blt y = true ∨ x.veq y = true ∨ y.blt x = true := by
  simp only [blt, veq, decide_eq_true_eq]
  omega

end Frac

/-- Python `int(x)` applied to an exact value: truncation towards zero.
`Int.tdiv` truncates towards zero, matching Python, since `keyDen` is
positive. -/
def pyInt (x : Frac) : ℤ := x.keyNum.tdiv x.keyDen

instance : Zero Frac := ⟨⟨0, 1⟩⟩

instance : Add Frac := ⟨Frac.add⟩

/-- Addition instance, so `Finset.sum` can be used for the horizontal-group
averages (the source sums Python floats; our model is exact). -/
instance : AddCommMonoid Frac where
  add_assoc := by
    rintro ⟨a, b⟩ ⟨c, d⟩ ⟨e, f⟩
    show Frac.add (Frac.add _ _) _ = Frac.add _ (Frac.add _ _)
    simp only [Frac.add, Frac.mk.injEq]
    constructor <;> ring
  zero_add := by
    rintro ⟨a, b⟩
    show Frac.add ⟨0, 1⟩ _ = _
    simp only [Frac.add, Frac.mk.injEq]
    constructor <;> ring
  add_zero := by
    rintro ⟨a, b⟩
    show Frac.add _ ⟨0, 1⟩ = _
    simp only [Frac.add, Frac.mk.injEq]
    constructor <;> ring
  add_comm := by
    rintro ⟨a, b⟩ ⟨c, d⟩
    show Frac.add _ _ = Frac.add _ _
    simp only [Frac.add, Frac.mk.injEq]
    constructor <;> ring
  nsmul := nsmulRec

/-- A command issued through `run_command`.  Each constructor stands for the
`pct` command line the source builds with an f-string:
`set_cores ctid n` is `pct set {ctid} -cores {n}`;
`set_memory ctid m` is `pct set {ctid} -memory {m}`;
`snapshot base` is `pct snapshot {base} {snapname} --description ...`
(the timestamped snapshot name is not modelled);
`clone base new k` is `pct clone {base} {new} --snapname ... --hostname
{base}-cloned-{k}`; `set_network ctid ip` is `pct set {ctid} -net0 ...`
(`none` for DHCP, `some ip` for a static address); `start ctid` is
`pct start {ctid}`. -/
inductive Cmd where
  | set_cores (ctid n : ℤ)
  | set_memory (ctid m : ℤ)
  | snapshot (base : ℤ)
  | clone (base newId : ℤ) (cloneNumber : ℤ)
  | set_network (ctid : ℤ) (ip : Option String)
  | start (ctid : ℤ)
deriving DecidableEq, Repr

/-- Python truthiness of a `run_command` result: `None` and the empty string
are falsy. -/
def py_truthy : Option String → Bool
  | none => false
  | some s => decide (s ≠ "")

/-- A record appended to the JSON event log.  The first six constructors are
the `log_json_event` calls of the vertical scaler (action tag and delta);
`scale_out_event` is the `log_json_event(..., "Scale Out", ...)` call;
`record tag` is a non-error `log_scaling_event` (tags `group_metrics`,
`horizontal_scaling_skip`); `error_record tag` is a `log_scaling_event`
with `error=True`. -/
inductive Event where
  | increase_cores (ctid delta : ℤ)
  | decrease_cores (ctid delta : ℤ)
  | increase_memory (ctid delta : ℤ)
  | decrease_memory (ctid delta : ℤ)
  | reduce_cores_off_peak (ctid delta : ℤ)
  | reduce_memory_off_peak (ctid delta : ℤ)
  | scale_out_event (ctid : ℤ)
  | record (tag : String)
  | error_record (tag : String)
deriving DecidableEq, Repr

/-- Is this event an error record? -/
def Event.isErrorRecord : Event → Bool
  | .error_record _ => true
  | _ => false

/-- The trace of one run: every issued command paired with the executor's
reply. -/
abbrev Trace := List (Cmd × Option String)

/-- One container's sample for a tick, as built by
`resource_manager.collect_data_for_container`: live CPU and memory
utilisation and the pre-tick allocation (`initial_cores`,
`initial_memory`). -/
structure Usage where
  cpu : Frac
  mem : Frac
  initial_cores : ℤ
  initial_memory : ℤ
deriving DecidableEq, Repr

/-- A tier configuration (`config.load_tier_configurations` always populates
every field, falling back to `DEFAULTS`). -/
structure TierConfig where
  cpu_upper_threshold : Frac
  cpu_lower_threshold : Frac
  memory_upper_threshold : Frac
  memory_lower_threshold : Frac
  min_cores : ℤ
  max_cores : ℤ
  min_memory : ℤ
  core_min_increment : ℤ
  core_max_increment : ℤ
  memory_min_increment : ℤ
  min_decrease_chunk : ℤ
deriving DecidableEq, Repr

/-- The behaviour mode (`DEFAULTS['behaviour']`). -/
inductive Behaviour where
  | conservative
  | normal
  | aggressive
deriving DecidableEq, Repr

/-- The process-wide environment of one tick: the executor oracle, the
configuration constants, the clock, and the tier resolver
(`LXC_TIER_ASSOCIATIONS.get(str(ctid), DEFAULTS)` as a total function). -/
structure Ctx where
  exec : Cmd → Option String
  cpu_scale_divisor : Frac
  memory_scale_factor : Frac
  behaviour : Behaviour
  current_hour : ℤ
  off_peak_start : ℤ
  off_peak_end : ℤ
  energy_mode : Bool
  ignored : List ℤ
  tier : ℤ → TierConfig
  nproc : ℤ
  host_memory : ℤ
  reserve_cpu_percent : ℤ
  reserve_memory_mb : ℤ

/-- Embeds `scaling_manager.calculate_increment`:
`min(max(min_increment, int((current - upper_threshold) / CPU_SCALE_DIVISOR)),
max_increment)`. -/
def calculate_increment (divisor : Frac) (current upper_threshold : Frac)
    (min_increment max_increment : ℤ) : ℤ :=
  let proportional_increment := pyInt ((current.sub upper_threshold).div divisor)
  min (max min_increment proportional_increment) max_increment

/-- Embeds `scaling_manager.calculate_decrement`:
`max(min(current_allocated - min_allocated, max(1, int((lower_threshold -
current) / CPU_SCALE_DIVISOR))), min_decrement)`.  Note that the lower bound
`min_decrement` is applied after the `current_allocated - min_allocated` cap,
so the result can exceed that cap. -/
def calculate_decrement (divisor : Frac) (current lower_threshold : Frac)
    (current_allocated min_decrement min_allocated : ℤ) : ℤ :=
  let dynamic_decrement := max 1 (pyInt ((lower_threshold.sub current).div divisor))
  max (min (current_allocated - min_allocated) dynamic_decrement) min_decrement

/-- Embeds `scaling_manager.get_behaviour_multiplier`: 0.5 / 1.0 / 2.0 by behaviour
mode, multiplied by 0.8 when `current_hour >= off_peak_start or current_hour
< off_peak_end` (the source applies this wrap-around formula regardless of
whether the window wraps midnight).  Python's binary float `0.8` is modelled
as the exact `4/5`; only products of the multiplier truncated by `int(...)`
feed back into the integer state, and no claim below depends on a value where
the binary rounding of `0.8` and `4/5` truncate differently. -/
def get_behaviour_multiplier (behaviour : Behaviour)
    (current_hour off_peak_start off_peak_end : ℤ) : Frac :=
  let base : Frac :=
    match behaviour with
    | .conservative => ⟨1, 2⟩
    | .aggressive => ⟨2, 1⟩
    | .normal => ⟨1, 1⟩
  if off_peak_start ≤ current_hour ∨ current_hour < off_peak_end then
    base.mul ⟨4, 5⟩
  else base

/-- Embeds `scaling_manager.is_off_peak`: if `start < end` then `start ≤ hour < end`
else `hour ≥ start or hour < end`. -/
def is_off_peak (current_hour off_peak_start off_peak_end : ℤ) : Bool :=
  if off_peak_start < off_peak_end then
    decide (off_peak_start ≤ current_hour ∧ current_hour < off_peak_end)
  else
    decide (current_hour ≥ off_peak_start ∨ current_hour < off_peak_end)

/-- Embeds `scaling_manager.validate_tier_settings`: field ranges
(thresholds in `[0, 100]`, `min_cores, max_cores ≥ 1`, `min_memory ≥ 128`)
and the relations `cpu_lower < cpu_upper`, `memory_lower < memory_upper`,
`min_cores ≤ max_cores`. -/
def validate_tier_settings (cfg : TierConfig) : Bool :=
  (Frac.ofInt 0).ble cfg.cpu_upper_threshold && cfg.cpu_upper_threshold.ble (Frac.ofInt 100) &&
  (Frac.ofInt 0).ble cfg.cpu_lower_threshold && cfg.cpu_lower_threshold.ble (Frac.ofInt 100) &&
  (Frac.ofInt 0).ble cfg.memory_upper_threshold && cfg.memory_upper_threshold.ble (Frac.ofInt 100) &&
  (Frac.ofInt 0).ble cfg.memory_lower_threshold && cfg.memory_lower_threshold.ble (Frac.ofInt 100) &&
  decide (1 ≤ cfg.min_cores) && decide (1 ≤ cfg.max_cores) && decide (128 ≤ cfg.min_memory) &&
  cfg.cpu_lower_threshold.blt cfg.cpu_upper_threshold &&
  cfg.memory_lower_threshold.blt cfg.memory_upper_threshold &&
  decide (cfg.min_cores ≤ cfg.max_cores)

/-- The `if not all([cpu_upper, cpu_lower, mem_upper, mem_lower, min_cores,
max_cores, min_memory])` guard of `adjust_resources`: Python treats the float
`0.0` and the int `0` as falsy, so the guard skips the container exactly when
one of the seven values is zero. -/
def tier_all_truthy (cfg : TierConfig) : Bool :=
  !cfg.cpu_upper_threshold.veq (Frac.ofInt 0) &&
  !cfg.cpu_lower_threshold.veq (Frac.ofInt 0) &&
  !cfg.memory_upper_threshold.veq (Frac.ofInt 0) &&
  !cfg.memory_lower_threshold.veq (Frac.ofInt 0) &&
  decide (cfg.min_cores ≠ 0) && decide (cfg.max_cores ≠ 0) && decide (cfg.min_memory ≠ 0)

/-- The result of one scaling block: the updated pool counter for the
resource it manages, the `changed` flag, the issued commands with the
executor's replies, and the appended event records. -/
structure ScaleStep where
  available : ℤ
  changed : Bool
  trace : Trace
  events : List Event
deriving DecidableEq, Repr

/-- A scaling block that does nothing. -/
def ScaleStep.noop (available : ℤ) : ScaleStep :=
  { available := available, changed := false, trace := [], events := [] }

/-- The CPU-adjustment block of `scaling_manager.adjust_resources`
(lines 297–325).  On the increase branch the command result is not
inspected: the pool is decremented and the `Increase Cores` record written
whenever the guard `available_cores >= increment and new_cores <= max_cores`
holds.  On the decrease branch `new_cores = max(min_cores, current_cores -
decrement)` and the pool is credited with `current_cores - new_cores`. -/
def adjust_cpu (ctx : Ctx) (ctid : ℤ) (cpu_usage : Frac) (cfg : TierConfig)
    (current_cores available_cores : ℤ) : ScaleStep :=
  if cfg.cpu_upper_threshold.blt cpu_usage then
    let increment := calculate_increment ctx.cpu_scale_divisor cpu_usage
      cfg.cpu_upper_threshold cfg.core_min_increment cfg.core_max_increment
    let new_cores := current_cores + increment
    if increment ≤ available_cores ∧ new_cores ≤ cfg.max_cores then
      { available := available_cores - increment, changed := true,
        trace := [(Cmd.set_cores ctid new_cores, ctx.exec (Cmd.set_cores ctid new_cores))],
        events := [Event.increase_cores ctid increment] }
    else ScaleStep.noop available_cores
  else if cpu_usage.blt cfg.cpu_lower_threshold ∧ cfg.min_cores < current_cores then
    let decrement := calculate_decrement ctx.cpu_scale_divisor cpu_usage
      cfg.cpu_lower_threshold current_cores cfg.core_min_increment cfg.min_cores
    let new_cores := max cfg.min_cores (current_cores - decrement)
    if cfg.min_cores ≤ new_cores then
      { available := available_cores + (current_cores - new_cores), changed := true,
        trace := [(Cmd.set_cores ctid new_cores, ctx.exec (Cmd.set_cores ctid new_cores))],
        events := [Event.decrease_cores ctid decrement] }
    else ScaleStep.noop available_cores
  else ScaleStep.noop available_cores

/-- Embeds `scaling_manager.scale_memory`.  The increase branch takes
`max(int(memory_min_increment * mult), int((mem_usage - mem_upper) *
memory_min_increment / MEMORY_SCALE_FACTOR))`; the decrease branch calls
`calculate_decrement` with `min_decrement = int(min_decrease_chunk * mult)`
and applies `current_memory - decrease_amount` without clamping to
`min_memory`.  The command result is never inspected. -/
def scale_memory (ctx : Ctx) (ctid : ℤ) (mem_usage mem_upper mem_lower : Frac)
    (current_memory min_memory available_memory : ℤ) (cfg : TierConfig) : ScaleStep :=
  let behaviour_multiplier := get_behaviour_multiplier ctx.behaviour
    ctx.current_hour ctx.off_peak_start ctx.off_peak_end
  if mem_upper.blt mem_usage then
    let increment := max
      (pyInt ((Frac.ofInt cfg.memory_min_increment).mul behaviour_multiplier))
      (pyInt (((mem_usage.sub mem_upper).mul (Frac.ofInt cfg.memory_min_increment)).div
        ctx.memory_scale_factor))
    if increment ≤ available_memory then
      { available := available_memory - increment, changed := true,
        trace := [(Cmd.set_memory ctid (current_memory + increment),
                   ctx.exec (Cmd.set_memory ctid (current_memory + increment)))],
        events := [Event.increase_memory ctid increment] }
    else ScaleStep.noop available_memory
  else if mem_usage.blt mem_lower ∧ min_memory < current_memory then
    let decrease_amount := calculate_decrement ctx.cpu_scale_divisor mem_usage mem_lower
      current_memory (pyInt ((Frac.ofInt cfg.min_decrease_chunk).mul behaviour_multiplier))
      min_memory
    if 0 < decrease_amount then
      { available := available_memory + decrease_amount, changed := true,
        trace := [(Cmd.set_memory ctid (current_memory - decrease_amount),
                   ctx.exec (Cmd.set_memory ctid (current_memory - decrease_amount)))],
        events := [Event.decrease_memory ctid decrease_amount] }
    else ScaleStep.noop available_memory
  else ScaleStep.noop available_memory

/-- The in-tick pool of the host accountant. -/
structure PoolState where
  available_cores : ℤ
  available_memory : ℤ
deriving DecidableEq, Repr

/-- The visible outcome of processing one container (or a whole tick). -/
structure ContainerStep where
  pool : PoolState
  trace : Trace
  events : List Event
deriving DecidableEq, Repr

/-- One arm of the off-peak energy clamp: the released amount, commands and
events. -/
structure Clamp where
  delta : ℤ
  trace : Trace
  events : List Event
deriving DecidableEq, Repr

/-- The energy-clamp block of `adjust_resources` (lines 332–345) for cores.
It compares the pre-tick `current_cores` (not the possibly already adjusted
value) against `min_cores`. -/
def clamp_cores (ctx : Ctx) (ctid : ℤ) (cfg : TierConfig) (usage : Usage) : Clamp :=
  if ctx.energy_mode && is_off_peak ctx.current_hour ctx.off_peak_start ctx.off_peak_end
      && decide (cfg.min_cores < usage.initial_cores) then
    { delta := usage.initial_cores - cfg.min_cores,
      trace := [(Cmd.set_cores ctid cfg.min_cores, ctx.exec (Cmd.set_cores ctid cfg.min_cores))],
      events := [Event.reduce_cores_off_peak ctid (usage.initial_cores - cfg.min_cores)] }
  else { delta := 0, trace := [], events := [] }

/-- The energy-clamp block of `adjust_resources` for memory. -/
def clamp_memory (ctx : Ctx) (ctid : ℤ) (cfg : TierConfig) (usage : Usage) : Clamp :=
  if ctx.energy_mode && is_off_peak ctx.current_hour ctx.off_peak_start ctx.off_peak_end
      && decide (cfg.min_memory < usage.initial_memory) then
    { delta := usage.initial_memory - cfg.min_memory,
      trace := [(Cmd.set_memory ctid cfg.min_memory, ctx.exec (Cmd.set_memory ctid cfg.min_memory))],
      events := [Event.reduce_memory_off_peak ctid (usage.initial_memory - cfg.min_memory)] }
  else { delta := 0, trace := [], events := [] }

/-- The body of the per-container loop of `adjust_resources`
(lines 241–345): skip ignored containers, skip on failed tier validation or
on a falsy tier value, then the CPU block, the `scale_memory` call and the
energy clamp, threading the pool. -/
def adjust_container (ctx : Ctx) (pool : PoolState) (ctid : ℤ) (usage : Usage) :
    ContainerStep :=
  if ctid ∈ ctx.ignored then { pool := pool, trace := [], events := [] }
  else
    let cfg := ctx.tier ctid
    if !(validate_tier_settings cfg) then { pool := pool, trace := [], events := [] }
    else if !(tier_all_truthy cfg) then { pool := pool, trace := [], events := [] }
    else
      let cpuStep := adjust_cpu ctx ctid usage.cpu cfg usage.initial_cores pool.available_cores
      let memStep := scale_memory ctx ctid usage.mem cfg.memory_upper_threshold
        cfg.memory_lower_threshold usage.initial_memory cfg.min_memory
        pool.available_memory cfg
      let cc := clamp_cores ctx ctid cfg usage
      let cm := clamp_memory ctx ctid cfg usage
      { pool := { available_cores := cpuStep.available + cc.delta,
                  available_memory := memStep.available + cm.delta },
        trace := cpuStep.trace ++ memStep.trace ++ cc.trace ++ cm.trace,
        events := cpuStep.events ++ memStep.events ++ cc.events ++ cm.events }

/-- Embeds `lxc_utils.get_total_cores`: `nproc` minus
`max(1, int(nproc * reserve_cpu_percent / 100))`.  Despite its name it
already returns the host total with the reservation subtracted. -/
def get_total_cores (ctx : Ctx) : ℤ :=
  let reserved_cores := max 1 (pyInt ⟨ctx.nproc * ctx.reserve_cpu_percent, 100⟩)
  ctx.nproc - reserved_cores

/-- Embeds `lxc_utils.get_total_memory`: `max(0, total - reserve_memory_mb)`;
like `get_total_cores` it already subtracts the reservation. -/
def get_total_memory (ctx : Ctx) : ℤ :=
  max 0 (ctx.host_memory - ctx.reserve_memory_mb)

/-- The pool initialisation of `adjust_resources` (lines 209–216): it takes
`get_total_cores()` / `get_total_memory()` — which have already subtracted
the reservation — as the totals and subtracts a reservation computed from
them once more. -/
def adjust_resources_initial_pool (ctx : Ctx) : PoolState :=
  let total_cores := get_total_cores ctx
  let total_memory := get_total_memory ctx
  let reserved_cores := max 1 (pyInt ⟨total_cores * ctx.reserve_cpu_percent, 100⟩)
  let reserved_memory := ctx.reserve_memory_mb
  { available_cores := total_cores - reserved_cores,
    available_memory := total_memory - reserved_memory }

/-- Embeds `scaling_manager.adjust_resources`: initialise the pool, then process the
containers serially in the order of the sample list (`containers.items()`
iterates the dict in insertion order, which is the probe completion order). -/
def adjust_resources (ctx : Ctx) (containers : List (ℤ × Usage)) : ContainerStep :=
  containers.foldl
    (fun acc c =>
      let r := adjust_container ctx acc.pool c.1 c.2
      { pool := r.pool, trace := acc.trace ++ r.trace, events := acc.events ++ r.events })
    { pool := adjust_resources_initial_pool ctx, trace := [], events := [] }

/-- The probe environment of the data-collection pipeline: what the external
world answers to each probe command.  `pct_config ctid` is the output of
`pct config {ctid}` split into lines (`none` for a falsy result);
`cores_field` / `memory_field` are the outputs of the
`pct config {ctid} | grep ... | awk ...` pipelines used by
`lxc_utils.get_container_data`.  `cpu` and `mem` are the results of
`get_cpu_usage` / `get_memory_usage`, which are total (they return `0.0` on
every failure) and are abstracted here because their fallback chains sleep
and parse `/proc` text. -/
structure ProbeEnv where
  running : ℤ → Bool
  ignored : ℤ → Bool
  pct_config : ℤ → Option (List String)
  cores_field : ℤ → Option String
  memory_field : ℤ → Option String
  cpu : ℤ → Frac
  mem : ℤ → Frac

/-- The outcome of probing one container: the sample handed to the caller
and the backup records written to the state store
(`backup_container_settings` calls, as `(ctid, cores, memory)`). -/
structure CollectResult where
  result : Option Usage
  backupWrites : List (ℤ × ℤ × ℤ)
deriving DecidableEq, Repr

/-- The parsing loop of `resource_manager.collect_data_for_container`:
for each line containing `':'`, split once, strip, and interpret the value of
the `cores` / `memory` keys with Python `int(...)`; a non-integer value
raises `ValueError`, modelled as the outer `none`. -/
def parse_cores_memory : List String → Option ℤ → Option ℤ →
    Option (Option ℤ × Option ℤ)
  | [], c, m => some (c, m)
  | line :: rest, c, m =>
    match line.splitOn ":" with
    | [] => parse_cores_memory rest c m
    | [_] => parse_cores_memory rest c m
    | key :: parts =>
      let v := (String.intercalate ":" parts).trim
      if key.trim = "cores" then
        match v.toInt? with
        | none => none
        | some n => parse_cores_memory rest (some n) m
      else if key.trim = "memory" then
        match v.toInt? with
        | none => none
        | some n => parse_cores_memory rest c (some n)
      else parse_cores_memory rest c m

/-- Embeds `resource_manager.collect_data_for_container` — the collector actually
used by `resource_manager.collect_container_data`, which feeds
`main_loop` and hence the vertical scaler.  It checks liveness, reads and
parses `pct config`, probes usage, and returns the sample.  It contains no
`backup_container_settings` call, so its list of backup writes is
literally empty. -/
def collect_data_for_container (env : ProbeEnv) (ctid : ℤ) : CollectResult :=
  { result :=
      if !(env.running ctid) then none
      else
        match env.pct_config ctid with
        | none => none
        | some lines =>
          match parse_cores_memory lines none none with
          | none => none
          | some (some cores, some memory) =>
            some { cpu := env.cpu ctid, mem := env.mem ctid,
                   initial_cores := cores, initial_memory := memory }
          | some _ => none,
    backupWrites := [] }

/-- Python `int(x or 0)` applied to an optional command output: `None` and
the empty string give `0`; a non-integer string raises (`none`). -/
def py_int_or_zero : Option String → Option ℤ
  | none => some 0
  | some s => if s = "" then some 0 else s.toInt?

/-- Embeds `lxc_utils.get_container_data` — the *other* collector in the repository
(not called by `resource_manager.main_loop`).  After reading `cores` and
`memory` it hands them to `backup_container_settings` before returning the
sample. -/
def get_container_data (env : ProbeEnv) (ctid : ℤ) : CollectResult :=
  if env.ignored ctid then { result := none, backupWrites := [] }
  else if !(env.running ctid) then { result := none, backupWrites := [] }
  else
    match py_int_or_zero (env.cores_field ctid), py_int_or_zero (env.memory_field ctid) with
    | some cores, some memory =>
      { result := some { cpu := env.cpu ctid, mem := env.mem ctid,
                         initial_cores := cores, initial_memory := memory },
        backupWrites := [(ctid, cores, memory)] }
    | _, _ => { result := none, backupWrites := [] }

/-- The priority order used by `lxc_utils.prioritize_containers`:
`sorted(containers.items(), key=lambda item: (item[1]['cpu'],
item[1]['mem']), reverse=True)` places `a` no later than `b` exactly when
`(a.cpu, a.mem)` is lexicographically at least `(b.cpu, b.mem)`; the sort is
stable, so tied keys keep their input order.  There is no id tie-break. -/
def prio_ge (a b : ℤ × Usage) : Bool :=
  b.2.cpu.blt a.2.cpu || (a.2.cpu.veq b.2.cpu && b.2.mem.ble a.2.mem)

/-- Embeds `lxc_utils.prioritize_containers`: a stable sort of the sample list by
`(cpu, mem)` descending. -/
def prioritize_containers (containers : List (ℤ × Usage)) : List (ℤ × Usage) :=
  List.mergeSort containers prio_ge

theorem prio_ge_total (a b : ℤ × Usage) : prio_ge a b || prio_ge b a := by
  unfold prio_ge
  rcases Frac.blt_or_veq_or_blt a.2.cpu b.2.cpu with h | h | h
  · simp [h]
  · rcases Bool.or_eq_true _ _ |>.mp (Frac.ble_total a.2.mem b.2.mem) with hm | hm
    · simp [Frac.veq_symm h, hm]
    · simp [h, hm]
  · simp [h]

theorem prio_ge_trans (a b c : ℤ × Usage) (h1 : prio_ge a b) (h2 : prio_ge b c) :
    prio_ge a c := by
  unfold prio_ge at *
  simp only [Bool.or_eq_true, Bool.and_eq_true] at *
  rcases h1 with h1 | ⟨h1e, h1m⟩
  · rcases h2 with h2 | ⟨h2e, h2m⟩
    · exact Or.inl (Frac.blt_trans h2 h1)
    · exact Or.inl (Frac.blt_of_veq_of_blt (Frac.veq_symm h2e) h1)
  · rcases h2 with h2 | ⟨h2e, h2m⟩
    · exact Or.inl (Frac.blt_of_blt_of_veq h2 (Frac.veq_symm h1e))
    · exact Or.inr ⟨Frac.veq_trans h1e h2e, Frac.ble_trans h2m h1m⟩

/-- A horizontal scaling group's configuration
(`HORIZONTAL_SCALING_GROUP_*` section with its defaults). -/
structure GroupConfig where
  starting_clone_id : ℤ
  max_instances : ℕ
  base_snapshot_name : ℤ
  clone_network_type : String
  static_ip_range : List String
  horiz_cpu_upper_threshold : Frac
  horiz_memory_upper_threshold : Frac
  horiz_cpu_lower_threshold : Frac
  horiz_memory_lower_threshold : Frac
  scale_out_grace_period : ℤ
  scale_in_grace_period : ℤ
  min_containers : ℕ

/-- A group's mutable state: its membership set
(`group_config['lxc_containers']`, a Python set of numeric-string ids) and
the group's entry in the process-wide `scale_last_action` dictionary. -/
structure GroupState where
  members : Finset ℤ
  lastAction : Option ℤ
deriving DecidableEq

/-- Embeds `scaling_manager.calculate_group_metrics`: sums over the filtered member
list and divides by its length.  Members absent from the sample map cannot
occur (the caller filters them out); the `none` arm defaults to `0`. -/
structure GroupMetrics where
  avg_cpu_usage : Frac
  avg_mem_usage : Frac
  total_containers : ℕ
deriving DecidableEq, Repr

/-- See `GroupMetrics`. -/
def calculate_group_metrics (group_lxc : Finset ℤ) (containers : List (ℤ × Usage)) :
    GroupMetrics :=
  let total_cpu := ∑ c ∈ group_lxc, (match containers.lookup c with | some u => u.cpu | none => 0)
  let total_mem := ∑ c ∈ group_lxc, (match containers.lookup c with | some u => u.mem | none => 0)
  { avg_cpu_usage := total_cpu.div (Frac.ofInt (group_lxc.card : ℤ)),
    avg_mem_usage := total_mem.div (Frac.ofInt (group_lxc.card : ℤ)),
    total_containers := group_lxc.card }

/-- Embeds `scaling_manager.should_scale_out`: false inside the grace period,
otherwise average CPU or average memory above the group's upper
thresholds.  (`max_instances` is not checked here; `scale_out` itself
returns early when the group is full.) -/
def should_scale_out (metrics : GroupMetrics) (cfg : GroupConfig) (now last_action : ℤ) :
    Bool :=
  if now - last_action < cfg.scale_out_grace_period then false
  else cfg.horiz_cpu_upper_threshold.blt metrics.avg_cpu_usage ||
       cfg.horiz_memory_upper_threshold.blt metrics.avg_mem_usage

/-- Embeds `scaling_manager.should_scale_in`: false inside the grace period,
otherwise both averages below the lower thresholds and more members than
`min_containers`. -/
def should_scale_in (metrics : GroupMetrics) (cfg : GroupConfig) (now last_action : ℤ) :
    Bool :=
  if now - last_action < cfg.scale_in_grace_period then false
  else metrics.avg_cpu_usage.blt cfg.horiz_cpu_lower_threshold &&
       metrics.avg_mem_usage.blt cfg.horiz_memory_lower_threshold &&
       decide (cfg.min_containers < metrics.total_containers)

/-- The outcome of `scale_out`: the (possibly extended) membership, the JSON
events, and the command trace. -/
structure ScaleOutResult where
  members : Finset ℤ
  events : List Event
  trace : Trace
deriving DecidableEq

/-- Embeds `scaling_manager.scale_out`.  Early return when the group is full.  The
snapshot and clone results are checked for truthiness; the network and start
commands' results are ignored, and membership is extended and the
`Scale Out` event written right after the `pct start` call, whatever its
result.  On the static network path the source filters
`static_ip_range` against `current_instances`, but that comparison is between
IP strings and integer ids and never removes anything, so the first
configured address is used. -/
def scale_out (exec : Cmd → Option String) (members : Finset ℤ) (cfg : GroupConfig) :
    ScaleOutResult :=
  if cfg.max_instances ≤ members.card then
    { members := members, events := [], trace := [] }
  else
    let new_ctid := cfg.starting_clone_id +
      ((members.filter (fun c => cfg.starting_clone_id ≤ c)).card : ℤ)
    let r1 := exec (Cmd.snapshot cfg.base_snapshot_name)
    if py_truthy r1 then
      let cloneCmd := Cmd.clone cfg.base_snapshot_name new_ctid ((members.card : ℤ) + 1)
      let r2 := exec cloneCmd
      if py_truthy r2 then
        let netTrace : Trace :=
          if cfg.clone_network_type = "dhcp" then
            [(Cmd.set_network new_ctid none, exec (Cmd.set_network new_ctid none))]
          else if cfg.clone_network_type = "static" then
            match cfg.static_ip_range with
            | [] => []
            | ip :: _ =>
              [(Cmd.set_network new_ctid (some ip), exec (Cmd.set_network new_ctid (some ip)))]
          else []
        let r3 := exec (Cmd.start new_ctid)
        { members := insert new_ctid members,
          events := [Event.scale_out_event new_ctid],
          trace := [(Cmd.snapshot cfg.base_snapshot_name, r1), (cloneCmd, r2)] ++
            netTrace ++ [(Cmd.start new_ctid, r3)] }
      else
        { members := members, events := [],
          trace := [(Cmd.snapshot cfg.base_snapshot_name, r1), (cloneCmd, r2)] }
    else
      { members := members, events := [], trace := [(Cmd.snapshot cfg.base_snapshot_name, r1)] }

/-- The outcome of one group's pass through
`manage_horizontal_scaling`. -/
structure HorizStepResult where
  state : GroupState
  events : List Event
  trace : Trace
deriving DecidableEq

/-- The per-group body of `scaling_manager.manage_horizontal_scaling`.
`last_action_time` defaults to one hour before `now`.  Members are filtered
to those present in the sample map and not ignored; an empty filtered set
yields a skip record.  A `group_metrics` record is always written next.  When
`should_scale_out` holds, `scale_out` runs and `scale_last_action` is set to
`now` (even if `scale_out` returned without cloning).  When `should_scale_in`
holds, the source calls `scale_in(group_name, group_config)` — a function
that is defined nowhere in the module and is not imported, so the call raises
`NameError` before `scale_last_action` is updated; the group's
`try/except` handler catches it and emits a `horizontal_scaling_error`
record, leaving the state untouched. -/
def manage_horizontal_scaling_step (exec : Cmd → Option String)
    (is_ignored_fn : ℤ → Bool) (now : ℤ) (cfg : GroupConfig) (st : GroupState)
    (containers : List (ℤ × Usage)) : HorizStepResult :=
  let last_action_time := st.lastAction.getD (now - 3600)
  let group_lxc := st.members.filter
    (fun c => (containers.lookup c).isSome ∧ is_ignored_fn c = false)
  if group_lxc = ∅ then
    { state := st, events := [Event.record "horizontal_scaling_skip"], trace := [] }
  else
    let metrics := calculate_group_metrics group_lxc containers
    if should_scale_out metrics cfg now last_action_time then
      let r := scale_out exec st.members cfg
      { state := { members := r.members, lastAction := some now },
        events := Event.record "group_metrics" :: r.events, trace := r.trace }
    else if should_scale_in metrics cfg now last_action_time then
      { state := st,
        events := [Event.record "group_metrics",
                   Event.error_record "horizontal_scaling_error"],
        trace := [] }
    else
      { state := st, events := [Event.record "group_metrics"], trace := [] }

/-- One control-loop tick as seen by the horizontal scaler: the wall-clock
time (`datetime.now()`, in seconds) and the tick's sample map. -/
structure Tick where
  time : ℤ
  containers : List (ℤ × Usage)

/-- Run the horizontal scaler for one group over a sequence of ticks,
threading the group state, and collect the timestamped events. -/
def run_horizontal (exec : Cmd → Option String) (is_ignored_fn : ℤ → Bool)
    (cfg : GroupConfig) : GroupState → List Tick → List (ℤ × Event)
  | _, [] => []
  | st, tk :: rest =>
    let r := manage_horizontal_scaling_step exec is_ignored_fn tk.time cfg st tk.containers
    r.events.map (fun ev => (tk.time, ev)) ++ run_horizontal exec is_ignored_fn cfg r.state rest

/-- The times at which a `Scale Out` event was written. -/
def scale_out_times (l : List (ℤ × Event)) : List ℤ :=
  l.filterMap fun p =>
    match p.2 with
    | Event.scale_out_event _ => some p.1
    | _ => none

/-- An executor on which every command succeeds with output `"ok"`. -/
def exec_ok : Cmd → Option String := fun _ => some "ok"

/-- An executor on which every command fails (`run_command` returns
`None`). -/
def exec_fail : Cmd → Option String := fun _ => none

/-- The `DEFAULTS` tier of `config.py`: thresholds 20/80 for CPU and memory,
`min_cores 1`, `max_cores 4`, `min_memory 512`, `core_min_increment 1`,
`core_max_increment 2`, `memory_min_increment 256`,
`min_decrease_chunk 128`. -/
def cfgD : TierConfig :=
  { cpu_upper_threshold := ⟨80, 1⟩, cpu_lower_threshold := ⟨20, 1⟩,
    memory_upper_threshold := ⟨80, 1⟩, memory_lower_threshold := ⟨20, 1⟩,
    min_cores := 1, max_cores := 4, min_memory := 512,
    core_min_increment := 1, core_max_increment := 2,
    memory_min_increment := 256, min_decrease_chunk := 128 }

/-- A default-configuration context: all commands succeed, the effective
defaults `CPU_SCALE_DIVISOR = 2.0` and `MEMORY_SCALE_FACTOR = 1.5` of
`config.py`, behaviour `normal`, 10 o'clock (outside the default 22–6
off-peak window), energy mode off, every container on the `DEFAULTS` tier,
a 16-core host with 16384 MiB, `reserve_cpu_percent 10`,
`reserve_memory_mb 2048`. -/
def ctxD : Ctx :=
  { exec := exec_ok, cpu_scale_divisor := ⟨2, 1⟩, memory_scale_factor := ⟨3, 2⟩,
    behaviour := .normal, current_hour := 10, off_peak_start := 22, off_peak_end := 6,
    energy_mode := false, ignored := [], tier := fun _ => cfgD,
    nproc := 16, host_memory := 16384, reserve_cpu_percent := 10,
    reserve_memory_mb := 2048 }

/-- C1: the spec claims that after any successful apply the allocation stays
within tier bounds, in particular that the memory-decrease branch never sets
memory below `min_memory`.  The code violates this: with usage 5% below the
lower threshold 20%, `current_memory = 600`, `min_memory = 512` and the
default `min_decrease_chunk = 128` (behaviour multiplier 1), the cap
`current_memory - min_memory = 88` is overridden by
`max(..., min_decrement) = 128`, and `scale_memory` applies
`pct set 101 -memory 472` — below `min_memory = 512` — on a successful
executor, crediting the pool with the full 128. -/
theorem c1_memory_decrease_below_min :
    (scale_memory ctxD 101 ⟨5, 1⟩ ⟨80, 1⟩ ⟨20, 1⟩ 600 512 4096 cfgD).trace =
      [(Cmd.set_memory 101 472, some "ok")] ∧
    (472 : ℤ) < 512 ∧
    (scale_memory ctxD 101 ⟨5, 1⟩ ⟨80, 1⟩ ⟨20, 1⟩ 600 512 4096 cfgD).events =
      [Event.decrease_memory 101 128] ∧
    (scale_memory ctxD 101 ⟨5, 1⟩ ⟨80, 1⟩ ⟨20, 1⟩ 600 512 4096 cfgD).available = 4224 := by
  decide

/-- C2: the spec claims the tick's pool starts at
`total - reserved` with the reservation subtracted exactly once.  In the
code, `get_total_cores` / `get_total_memory` already subtract the
reservation, and `adjust_resources` (lines 209–216) subtracts it again from
their results: on a 16-core, 16384 MiB host with 10% CPU reserve and
2048 MiB memory reserve, the pool starts at `(14, 12288)` instead of the
claimed `(15, 14336)`. -/
theorem c2_reservation_subtracted_twice :
    adjust_resources_initial_pool ctxD =
      { available_cores := 14, available_memory := 12288 } ∧
    ctxD.nproc - max 1 (pyInt ⟨ctxD.nproc * ctxD.reserve_cpu_percent, 100⟩) = 15 ∧
    ctxD.host_memory - ctxD.reserve_memory_mb = 14336 ∧
    adjust_resources_initial_pool ctxD ≠
      { available_cores := 15, available_memory := 14336 } := by
  decide

/-- A probe environment: container 100 is running and not ignored; the
`grep`/`awk` pipelines of `lxc_utils.get_container_data` return nothing
(falsy, so Python computes `int(0)`), and the usage probes return 0. -/
def env_c4 : ProbeEnv :=
  { running := fun _ => true, ignored := fun _ => false,
    pct_config := fun _ => none, cores_field := fun _ => none,
    memory_field := fun _ => none, cpu := fun _ => ⟨0, 1⟩, mem := fun _ => ⟨0, 1⟩ }

/-- C4: the spec claims the data-collection pipeline that feeds the vertical
scaler backs up each probed container's pre-tick `(cores, memory)`.  The
collector that `resource_manager.main_loop` actually runs
(`resource_manager.collect_data_for_container`) contains no
`backup_container_settings` call: its backup-write list is empty for every
environment and container.  The only collector that does write a backup is
`lxc_utils.get_container_data`, which `main_loop` never calls. -/
theorem c4_pipeline_writes_no_backup :
    (∀ (env : ProbeEnv) (ctid : ℤ),
      (collect_data_for_container env ctid).backupWrites = []) ∧
    (get_container_data env_c4 100).backupWrites = [(100, 0, 0)] ∧
    (get_container_data env_c4 100).result.isSome = true := by
  refine ⟨fun env ctid => rfl, ?_, ?_⟩ <;> decide

/-- A horizontal group: clones start at id 200, at most 4 members, base
container 100, DHCP networking, scale-out thresholds 70/80, scale-in
thresholds 10/10, grace periods 300 s / 600 s, at least 1 member. -/
def cfgG : GroupConfig :=
  { starting_clone_id := 200, max_instances := 4, base_snapshot_name := 100,
    clone_network_type := "dhcp", static_ip_range := [],
    horiz_cpu_upper_threshold := ⟨70, 1⟩, horiz_memory_upper_threshold := ⟨80, 1⟩,
    horiz_cpu_lower_threshold := ⟨10, 1⟩, horiz_memory_lower_threshold := ⟨10, 1⟩,
    scale_out_grace_period := 300, scale_in_grace_period := 600, min_containers := 1 }

/-- An idle sample: 5% CPU, 5% memory, 2 cores, 1024 MiB. -/
def usage_idle : Usage := { cpu := ⟨5, 1⟩, mem := ⟨5, 1⟩, initial_cores := 2, initial_memory := 1024 }

/-- C7: with group `{100, 101, 102}`, all members idle at 5% (below the 10%
lower thresholds), 3 > 1 members, and the last action 10000 s ago (past the
600 s scale-in grace), the scale-in predicate holds — but the code then
calls `scale_in`, a function that does not exist in `scaling_manager.py`
(neither defined nor imported), so a `NameError` is raised and caught by the
group's exception handler: a `horizontal_scaling_error` record is emitted,
no stop/destroy command is issued, and membership and `scale_last_action`
are unchanged, instead of the claimed stop/destroy/remove procedure. -/
theorem c7_scale_in_is_undefined :
    manage_horizontal_scaling_step exec_ok (fun _ => false) 10000 cfgG
        { members := {100, 101, 102}, lastAction := some 0 }
        [(100, usage_idle), (101, usage_idle), (102, usage_idle)] =
      { state := { members := {100, 101, 102}, lastAction := some 0 },
        events := [Event.record "group_metrics",
                   Event.error_record "horizontal_scaling_error"],
        trace := [] } := by
  decide

/-- Modelled from the claim's words (C8): the multiplier's base value per
behaviour mode — 0.5 conservative, 1.0 normal, 2.0 aggressive. -/
def claim_base : Behaviour → Frac
  | .conservative => ⟨1, 2⟩
  | .normal => ⟨1, 1⟩
  | .aggressive => ⟨2, 1⟩

/-- Modelled from the claim's words (C8): the behaviour multiplier as the
claim states it — the base value times 0.8 exactly when the hour lies in the
configured off-peak window as decided by `is_off_peak`. -/
def claim_multiplier (behaviour : Behaviour)
    (current_hour off_peak_start off_peak_end : ℤ) : Frac :=
  if is_off_peak current_hour off_peak_start off_peak_end then
    (claim_base behaviour).mul ⟨4, 5⟩
  else claim_base behaviour

/-- C8 counterexample: with a non-wrapping window `off_peak_start = 2`,
`off_peak_end = 6` and `current_hour = 10`, the hour is *not* off-peak
(`is_off_peak = false`), yet `get_behaviour_multiplier` applies the 0.8
factor, because it tests `hour ≥ start or hour < end` unconditionally
instead of using the `is_off_peak` window logic. -/
theorem c8_counterexample :
    get_behaviour_multiplier .normal 10 2 6 = ⟨4, 5⟩ ∧
    is_off_peak 10 2 6 = false ∧
    claim_multiplier .normal 10 2 6 = ⟨1, 1⟩ ∧
    (get_behaviour_multiplier .normal 10 2 6).veq (claim_multiplier .normal 10 2 6) =
      false := by
  decide

/-- The default context with an executor on which every command fails. -/
def ctx_fail : Ctx := { ctxD with exec := exec_fail }

/-- C3 counterexample: container 101 at 95% CPU on the `DEFAULTS` tier wants
+2 cores (guard passes: 2 ≤ 10 available, 4 ≤ max 4); the apply command
*fails* (`run_command` returns `None`), yet the pool is still decremented
from 10 to 8, a plain `Increase Cores` record — and no error record — is
written.  The claim says a failed apply leaves the pool untouched and emits
an error record. -/
theorem c3_counterexample :
    (adjust_cpu ctx_fail 101 ⟨95, 1⟩ cfgD 2 10).trace = [(Cmd.set_cores 101 4, none)] ∧
    (adjust_cpu ctx_fail 101 ⟨95, 1⟩ cfgD 2 10).available = 8 ∧
    (8 : ℤ) ≠ 10 ∧
    (adjust_cpu ctx_fail 101 ⟨95, 1⟩ cfgD 2 10).events = [Event.increase_cores 101 2] ∧
    ((adjust_cpu ctx_fail 101 ⟨95, 1⟩ cfgD 2 10).events.all fun ev => !ev.isErrorRecord) =
      true := by
  decide

theorem adjust_cpu_exec_independent (ctx : Ctx) (e2 : Cmd → Option String)
    (ctid : ℤ) (cpu_usage : Frac) (cfg : TierConfig) (current_cores available_cores : ℤ) :
    (adjust_cpu { ctx with exec := e2 } ctid cpu_usage cfg current_cores available_cores).available =
      (adjust_cpu ctx ctid cpu_usage cfg current_cores available_cores).available ∧
    (adjust_cpu { ctx with exec := e2 } ctid cpu_usage cfg current_cores available_cores).events =
      (adjust_cpu ctx ctid cpu_usage cfg current_cores available_cores).events ∧
    (adjust_cpu { ctx with exec := e2 } ctid cpu_usage cfg current_cores available_cores).changed =
      (adjust_cpu ctx ctid cpu_usage cfg current_cores available_cores).changed := by
  obtain ⟨ex, d, ms, bh, hh, s, t, em, ig, tr, np, hm, rp, rm⟩ := ctx
  refine ⟨?_, ?_, ?_⟩ <;> (simp only [adjust_cpu]; split_ifs <;> rfl)

theorem scale_memory_exec_independent (ctx : Ctx) (e2 : Cmd → Option String)
    (ctid : ℤ) (mem_usage mem_upper mem_lower : Frac)
    (current_memory min_memory available_memory : ℤ) (cfg : TierConfig) :
    (scale_memory { ctx with exec := e2 } ctid mem_usage mem_upper mem_lower
        current_memory min_memory available_memory cfg).available =
      (scale_memory ctx ctid mem_usage mem_upper mem_lower
        current_memory min_memory available_memory cfg).available ∧
    (scale_memory { ctx with exec := e2 } ctid mem_usage mem_upper mem_lower
        current_memory min_memory available_memory cfg).events =
      (scale_memory ctx ctid mem_usage mem_upper mem_lower
        current_memory min_memory available_memory cfg).events ∧
    (scale_memory { ctx with exec := e2 } ctid mem_usage mem_upper mem_lower
        current_memory min_memory available_memory cfg).changed =
      (scale_memory ctx ctid mem_usage mem_upper mem_lower
        current_memory min_memory available_memory cfg).changed := by
  obtain ⟨ex, d, ms, bh, hh, s, t, em, ig, tr, np, hm, rp, rm⟩ := ctx
  refine ⟨?_, ?_, ?_⟩ <;> (simp only [scale_memory]; split_ifs <;> rfl)

theorem clamp_cores_exec_independent (ctx : Ctx) (e2 : Cmd → Option String)
    (ctid : ℤ) (cfg : TierConfig) (usage : Usage) :
    (clamp_cores { ctx with exec := e2 } ctid cfg usage).delta =
      (clamp_cores ctx ctid cfg usage).delta ∧
    (clamp_cores { ctx with exec := e2 } ctid cfg usage).events =
      (clamp_cores ctx ctid cfg usage).events := by
  obtain ⟨ex, d, ms, bh, hh, s, t, em, ig, tr, np, hm, rp, rm⟩ := ctx
  refine ⟨?_, ?_⟩ <;> (simp only [clamp_cores]; split_ifs <;> rfl)

theorem clamp_memory_exec_independent (ctx : Ctx) (e2 : Cmd → Option String)
    (ctid : ℤ) (cfg : TierConfig) (usage : Usage) :
    (clamp_memory { ctx with exec := e2 } ctid cfg usage).delta =
      (clamp_memory ctx ctid cfg usage).delta ∧
    (clamp_memory { ctx with exec := e2 } ctid cfg usage).events =
      (clamp_memory ctx ctid cfg usage).events := by
  obtain ⟨ex, d, ms, bh, hh, s, t, em, ig, tr, np, hm, rp, rm⟩ := ctx
  refine ⟨?_, ?_⟩ <;> (simp only [clamp_memory]; split_ifs <;> rfl)

theorem adjust_cpu_no_error (ctx : Ctx) (ctid : ℤ) (cpu_usage : Frac)
    (cfg : TierConfig) (current_cores available_cores : ℤ) :
    ((adjust_cpu ctx ctid cpu_usage cfg current_cores available_cores).events.all
      fun ev => !ev.isErrorRecord) = true := by
  simp only [adjust_cpu]; split_ifs <;> rfl

theorem scale_memory_no_error (ctx : Ctx) (ctid : ℤ) (mem_usage mem_upper mem_lower : Frac)
    (current_memory min_memory available_memory : ℤ) (cfg : TierConfig) :
    ((scale_memory ctx ctid mem_usage mem_upper mem_lower current_memory min_memory
        available_memory cfg).events.all fun ev => !ev.isErrorRecord) = true := by
  simp only [scale_memory]; split_ifs <;> rfl

theorem clamp_cores_no_error (ctx : Ctx) (ctid : ℤ) (cfg : TierConfig) (usage : Usage) :
    ((clamp_cores ctx ctid cfg usage).events.all fun ev => !ev.isErrorRecord) = true := by
  simp only [clamp_cores]; split_ifs <;> rfl

theorem clamp_memory_no_error (ctx : Ctx) (ctid : ℤ) (cfg : TierConfig) (usage : Usage) :
    ((clamp_memory ctx ctid cfg usage).events.all fun ev => !ev.isErrorRecord) = true := by
  simp only [clamp_memory]; split_ifs <;> rfl

/-- C3 amended: the vertical scaler never inspects the executor's reply.
For every container, the pool accounting and the emitted records after
processing it are identical under any two executors (in particular, a failed
increase still consumes the pool and still produces its plain increase
record — nothing is released), no error record is ever emitted by the
vertical scaler, and at most the four mutation commands (CPU, memory, two
off-peak clamps) are issued once each, with no retry. -/
theorem c3_amended_executor_ignored (ctx : Ctx) (e2 : Cmd → Option String)
    (pool : PoolState) (ctid : ℤ) (usage : Usage) :
    (adjust_container { ctx with exec := e2 } pool ctid usage).pool =
      (adjust_container ctx pool ctid usage).pool ∧
    (adjust_container { ctx with exec := e2 } pool ctid usage).events =
      (adjust_container ctx pool ctid usage).events ∧
    ((adjust_container ctx pool ctid usage).events.all fun ev => !ev.isErrorRecord) = true ∧
    (adjust_container ctx pool ctid usage).trace.length ≤ 4 := by
  have hcpu := adjust_cpu_exec_independent ctx e2 ctid usage.cpu (ctx.tier ctid)
    usage.initial_cores pool.available_cores
  have hmem := scale_memory_exec_independent ctx e2 ctid usage.mem
    (ctx.tier ctid).memory_upper_threshold (ctx.tier ctid).memory_lower_threshold
    usage.initial_memory (ctx.tier ctid).min_memory pool.available_memory (ctx.tier ctid)
  have hcc := clamp_cores_exec_independent ctx e2 ctid (ctx.tier ctid) usage
  have hcm := clamp_memory_exec_independent ctx e2 ctid (ctx.tier ctid) usage
  have ncpu := adjust_cpu_no_error ctx ctid usage.cpu (ctx.tier ctid)
    usage.initial_cores pool.available_cores
  have nmem := scale_memory_no_error ctx ctid usage.mem
    (ctx.tier ctid).memory_upper_threshold (ctx.tier ctid).memory_lower_threshold
    usage.initial_memory (ctx.tier ctid).min_memory pool.available_memory (ctx.tier ctid)
  have ncc := clamp_cores_no_error ctx ctid (ctx.tier ctid) usage
  have ncm := clamp_memory_no_error ctx ctid (ctx.tier ctid) usage
  have tcpu : (adjust_cpu ctx ctid usage.cpu (ctx.tier ctid) usage.initial_cores
      pool.available_cores).trace.length ≤ 1 := by
    simp only [adjust_cpu]; split_ifs <;> simp [ScaleStep.noop]
  have tmem : (scale_memory ctx ctid usage.mem (ctx.tier ctid).memory_upper_threshold
      (ctx.tier ctid).memory_lower_threshold usage.initial_memory (ctx.tier ctid).min_memory
      pool.available_memory (ctx.tier ctid)).trace.length ≤ 1 := by
    simp only [scale_memory]; split_ifs <;> simp [ScaleStep.noop]
  have tcc : (clamp_cores ctx ctid (ctx.tier ctid) usage).trace.length ≤ 1 := by
    simp only [clamp_cores]; split_ifs <;> simp
  have tcm : (clamp_memory ctx ctid (ctx.tier ctid) usage).trace.length ≤ 1 := by
    simp only [clamp_memory]; split_ifs <;> simp
  have htier : ({ ctx with exec := e2 } : Ctx).tier = ctx.tier := rfl
  have hign : ({ ctx with exec := e2 } : Ctx).ignored = ctx.ignored := rfl
  simp only [adjust_container, htier, hign]
  split_ifs
  · simp
  · simp
  · simp
  · refine ⟨?_, ?_, ?_, ?_⟩
    · simp [hcpu.1, hcc.1, hmem.1, hcm.1]
    · simp [hcpu.2.1, hcc.2, hmem.2.1, hcm.2]
    · simp only [List.all_append, Bool.and_eq_true]
      exact ⟨⟨⟨ncpu, nmem⟩, ncc⟩, ncm⟩
    · simp only [List.length_append]
      omega

/-- C8 amended: the 0.8 off-peak factor of `get_behaviour_multiplier` is
applied exactly when `hour ≥ off_peak_start ∨ hour < off_peak_end` — the
wrap-around formula, used regardless of how the window is configured — and
therefore the claimed window-based behaviour holds precisely when the
window wraps midnight (`¬ start < end`, as in the default 22→6). -/
theorem c8_amended (behaviour : Behaviour) (hour s t : ℤ) :
    ((s ≤ hour ∨ hour < t) →
      get_behaviour_multiplier behaviour hour s t = (claim_base behaviour).mul ⟨4, 5⟩) ∧
    (¬(s ≤ hour ∨ hour < t) →
      get_behaviour_multiplier behaviour hour s t = claim_base behaviour) ∧
    (¬ s < t →
      get_behaviour_multiplier behaviour hour s t = claim_multiplier behaviour hour s t) := by
  refine ⟨?_, ?_, ?_⟩
  · intro hc
    cases behaviour <;> simp [get_behaviour_multiplier, claim_base, hc]
  · intro hc
    cases behaviour <;> simp [get_behaviour_multiplier, claim_base, hc]
  · intro hw
    by_cases hc : s ≤ hour ∨ hour < t
    · cases behaviour <;>
        simp [get_behaviour_multiplier, claim_multiplier, claim_base, is_off_peak, hw, hc]
    · cases behaviour <;>
        simp [get_behaviour_multiplier, claim_multiplier, claim_base, is_off_peak, hw, hc]

theorem c8_witness :
    get_behaviour_multiplier .conservative 23 22 6 = claim_multiplier .conservative 23 22 6 :=
  (c8_amended .conservative 23 22 6).2.2 (by decide)

/-- A hot sample: 95% CPU, 50% memory, 2 cores, 1024 MiB. -/
def usage_hot : Usage := { cpu := ⟨95, 1⟩, mem := ⟨50, 1⟩, initial_cores := 2, initial_memory := 1024 }

/-- The default context on a 4-core host: the tick's pool starts at exactly
2 cores, enough for one +2-core increase but not two. -/
def ctx_c5 : Ctx := { ctxD with nproc := 4 }

/-- C5 counterexample: two sample maps that are equal as maps — containers
101 and 102, both at (cpu 95%, mem 50%) — but listed in the two probe
completion orders, produce different vertical-scaler outcomes: with 2 cores
in the pool and a +2 increase each, whichever container is processed first
takes the whole pool (`Increase Cores` for 101 in one order, for 102 in the
other).  Also `prioritize_containers` itself maps the two orders to
different lists: the sort key has no id tie-break and the stable sort keeps
tied containers in input order. -/
theorem c5_counterexample :
    ([((101 : ℤ), usage_hot), (102, usage_hot)]).Perm
      [((102 : ℤ), usage_hot), (101, usage_hot)] ∧
    (adjust_resources ctx_c5 [(101, usage_hot), (102, usage_hot)]).events ≠
      (adjust_resources ctx_c5 [(102, usage_hot), (101, usage_hot)]).events ∧
    prioritize_containers [(101, usage_hot), (102, usage_hot)] ≠
      prioritize_containers [(102, usage_hot), (101, usage_hot)] := by
  have h1 : prioritize_containers [((101 : ℤ), usage_hot), (102, usage_hot)] =
      [((101 : ℤ), usage_hot), (102, usage_hot)] :=
    List.mergeSort_of_sorted (by decide)
  have h2 : prioritize_containers [((102 : ℤ), usage_hot), (101, usage_hot)] =
      [((102 : ℤ), usage_hot), (101, usage_hot)] :=
    List.mergeSort_of_sorted (by decide)
  refine ⟨by decide, by decide, ?_⟩
  rw [h1, h2]
  decide

/-- C5 amended: `prioritize_containers` is a permutation of the sample list
that is sorted by `(cpu_pct, mem_pct)` descending — and nothing more: there
is no id tie-break, the sort is stable, so on tied keys the output (and, via
the shared pool, the tick's outcome) still depends on the probe completion
order, as the counterexample shows; the per-tick results are a deterministic
function of the *ordered* sample list, not of the map alone.  (The modular
`resource_manager.main_loop` does not even call `prioritize_containers`; it
hands the sample dict to `adjust_resources` in insertion order.) -/
theorem c5_amended_sorted_but_order_dependent (l : List (ℤ × Usage)) :
    (prioritize_containers l).Perm l ∧
    List.Pairwise (fun a b => prio_ge a b = true) (prioritize_containers l) :=
  ⟨List.mergeSort_perm l prio_ge,
   List.sorted_mergeSort (fun a b c => prio_ge_trans a b c) (fun a b => prio_ge_total a b) l⟩

/-- An executor on which only `pct start` fails. -/
def exec_start_fails : Cmd → Option String
  | Cmd.start _ => none
  | _ => some "ok"

/-- An executor on which only `pct snapshot` fails. -/
def exec_snapshot_fails : Cmd → Option String
  | Cmd.snapshot _ => none
  | _ => some "ok"

/-- An executor on which only `pct clone` fails. -/
def exec_clone_fails : Cmd → Option String
  | Cmd.clone _ _ _ => none
  | _ => some "ok"

/-- C6 counterexample: in group `{100, 101}` (clone ids from 200), when the
snapshot and clone succeed but starting the new container *fails*, the
membership is still extended to `{100, 101, 200}` and the `Scale Out` record
is still written — the start command's result is never checked — refuting
"membership is extended only when every step succeeded".  And when the
snapshot fails, membership is indeed unchanged, but no error record is
emitted either (only a log line), refuting "an error record is emitted". -/
theorem c6_counterexample :
    (scale_out exec_start_fails {100, 101} cfgG).members = {100, 101, 200} ∧
    ({100, 101, 200} : Finset ℤ) ≠ {100, 101} ∧
    exec_start_fails (Cmd.start 200) = none ∧
    (scale_out exec_start_fails {100, 101} cfgG).events = [Event.scale_out_event 200] ∧
    (scale_out exec_snapshot_fails {100, 101} cfgG).members = {100, 101} ∧
    (scale_out exec_snapshot_fails {100, 101} cfgG).events = [] ∧
    (scale_out exec_clone_fails {100, 101} cfgG).members = {100, 101} ∧
    (scale_out exec_clone_fails {100, 101} cfgG).events = [] := by
  decide

/-- C6 amended: for a non-full group, `scale_out` leaves the membership
unmutated when the snapshot or the clone step fails — emitting no event
record at all (the failure is only logged) — and extends the membership with
the next clone id and writes the `Scale Out` record as soon as snapshot and
clone both succeed, regardless of whether the network setup or the start of
the new container succeed. -/
theorem c6_amended (exec : Cmd → Option String) (members : Finset ℤ) (cfg : GroupConfig)
    (hroom : members.card < cfg.max_instances) :
    (py_truthy (exec (Cmd.snapshot cfg.base_snapshot_name)) = false →
      (scale_out exec members cfg).members = members ∧
      (scale_out exec members cfg).events = []) ∧
    (∀ newId, newId = cfg.starting_clone_id +
        ((members.filter (fun c => cfg.starting_clone_id ≤ c)).card : ℤ) →
      py_truthy (exec (Cmd.snapshot cfg.base_snapshot_name)) = true →
      py_truthy (exec (Cmd.clone cfg.base_snapshot_name newId ((members.card : ℤ) + 1))) = false →
      (scale_out exec members cfg).members = members ∧
      (scale_out exec members cfg).events = []) ∧
    (∀ newId, newId = cfg.starting_clone_id +
        ((members.filter (fun c => cfg.starting_clone_id ≤ c)).card : ℤ) →
      py_truthy (exec (Cmd.snapshot cfg.base_snapshot_name)) = true →
      py_truthy (exec (Cmd.clone cfg.base_snapshot_name newId ((members.card : ℤ) + 1))) = true →
      (scale_out exec members cfg).members = insert newId members ∧
      (scale_out exec members cfg).events = [Event.scale_out_event newId]) := by
  refine ⟨?_, ?_, ?_⟩
  · intro h1
    simp [scale_out, if_neg (not_le.mpr hroom), h1]
  · intro newId hnew h1 h2
    subst hnew
    simp [scale_out, if_neg (not_le.mpr hroom), h1, h2]
  · intro newId hnew h1 h2
    subst hnew
    simp [scale_out, if_neg (not_le.mpr hroom), h1, h2]

theorem c6_witness :
    (scale_out exec_start_fails ({100, 101} : Finset ℤ) cfgG).members =
      insert 200 {100, 101} ∧
    (scale_out exec_start_fails ({100, 101} : Finset ℤ) cfgG).events =
      [Event.scale_out_event 200] :=
  (c6_amended exec_start_fails {100, 101} cfgG (by decide)).2.2 200 (by decide)
    (by decide) (by decide)

/-- C10: on the CPU-decrease branch (`cpu_usage < cpu_lower` and
`current_cores > min_cores`, with the increase branch not taken), for any
decrement returned by `calculate_decrement` — even one exceeding
`current_cores - min_cores`, which happens whenever `core_min_increment`
exceeds that cap, because `calculate_decrement` applies its lower bound
after the cap — the applied value is
`new_cores = max(min_cores, current_cores - decrement)`, the result never
falls below `min_cores`, and the pool is credited with
`current_cores - new_cores`, not with the raw decrement. -/
theorem c10_cpu_decrease_clamped (ctx : Ctx) (ctid : ℤ) (cpu_usage : Frac)
    (cfg : TierConfig) (current_cores available_cores : ℤ)
    (hup : cfg.cpu_upper_threshold.blt cpu_usage = false)
    (hlo : cpu_usage.blt cfg.cpu_lower_threshold = true)
    (hmin : cfg.min_cores < current_cores) :
    adjust_cpu ctx ctid cpu_usage cfg current_cores available_cores =
      { available := available_cores + (current_cores -
          max cfg.min_cores (current_cores - calculate_decrement ctx.cpu_scale_divisor
            cpu_usage cfg.cpu_lower_threshold current_cores cfg.core_min_increment
            cfg.min_cores)),
        changed := true,
        trace := [(Cmd.set_cores ctid
            (max cfg.min_cores (current_cores - calculate_decrement ctx.cpu_scale_divisor
              cpu_usage cfg.cpu_lower_threshold current_cores cfg.core_min_increment
              cfg.min_cores)),
          ctx.exec (Cmd.set_cores ctid
            (max cfg.min_cores (current_cores - calculate_decrement ctx.cpu_scale_divisor
              cpu_usage cfg.cpu_lower_threshold current_cores cfg.core_min_increment
              cfg.min_cores))))],
        events := [Event.decrease_cores ctid (calculate_decrement ctx.cpu_scale_divisor
          cpu_usage cfg.cpu_lower_threshold current_cores cfg.core_min_increment
          cfg.min_cores)] } ∧
    cfg.min_cores ≤ max cfg.min_cores (current_cores - calculate_decrement
      ctx.cpu_scale_divisor cpu_usage cfg.cpu_lower_threshold current_cores
      cfg.core_min_increment cfg.min_cores) := by
  refine ⟨?_, le_max_left _ _⟩
  simp only [adjust_cpu, hup, Bool.false_eq_true, if_false, hlo, hmin, and_true, if_pos,
    le_max_left]

/-- A tier on which `core_min_increment = 4` exceeds
`current_cores - min_cores` for small containers. -/
def cfg_c10 : TierConfig := { cfgD with min_cores := 2, core_min_increment := 4 }

theorem c10_witness :
    adjust_cpu ctxD 101 ⟨5, 1⟩ cfg_c10 3 10 =
      { available := 11, changed := true,
        trace := [(Cmd.set_cores 101 2, some "ok")],
        events := [Event.decrease_cores 101 4] } ∧
    calculate_decrement ctxD.cpu_scale_divisor ⟨5, 1⟩ cfg_c10.cpu_lower_threshold 3
      cfg_c10.core_min_increment cfg_c10.min_cores = 4 ∧
    (3 : ℤ) - 2 < 4 := by
  have h := c10_cpu_decrease_clamped ctxD 101 ⟨5, 1⟩ cfg_c10 3 10 (by decide) (by decide)
    (by decide)
  refine ⟨?_, by decide, by decide⟩
  rw [h.1]
  decide

theorem should_scale_out_grace {metrics : GroupMetrics} {cfg : GroupConfig} {now last : ℤ}
    (h : should_scale_out metrics cfg now last = true) :
    cfg.scale_out_grace_period ≤ now - last := by
  by_cases hl : now - last < cfg.scale_out_grace_period
  · simp only [should_scale_out, if_pos hl] at h
    exact absurd h (by simp)
  · exact not_lt.mp hl

theorem scale_out_events_shape (exec : Cmd → Option String) (members : Finset ℤ)
    (cfg : GroupConfig) :
    (scale_out exec members cfg).events = [] ∨
    ∃ n, (scale_out exec members cfg).events = [Event.scale_out_event n] := by
  simp only [scale_out]
  split_ifs <;> simp

theorem scale_out_times_append (a b : List (ℤ × Event)) :
    scale_out_times (a ++ b) = scale_out_times a ++ scale_out_times b := by
  simp [scale_out_times, List.filterMap_append]

theorem run_horizontal_cons (exec : Cmd → Option String) (ig : ℤ → Bool)
    (cfg : GroupConfig) (st : GroupState) (tk : Tick) (rest : List Tick) :
    run_horizontal exec ig cfg st (tk :: rest) =
      ((manage_horizontal_scaling_step exec ig tk.time cfg st tk.containers).events.map
        fun ev => (tk.time, ev)) ++
      run_horizontal exec ig cfg
        (manage_horizontal_scaling_step exec ig tk.time cfg st tk.containers).state rest := rfl

theorem manage_step_cases (exec : Cmd → Option String) (ig : ℤ → Bool) (now : ℤ)
    (cfg : GroupConfig) (st : GroupState) (cs : List (ℤ × Usage)) :
    ((manage_horizontal_scaling_step exec ig now cfg st cs).state = st ∧
      scale_out_times ((manage_horizontal_scaling_step exec ig now cfg st cs).events.map
        fun ev => (now, ev)) = []) ∨
    ((manage_horizontal_scaling_step exec ig now cfg st cs).state.lastAction = some now ∧
      cfg.scale_out_grace_period ≤ now - st.lastAction.getD (now - 3600) ∧
      (scale_out_times ((manage_horizontal_scaling_step exec ig now cfg st cs).events.map
          fun ev => (now, ev)) = [] ∨
       scale_out_times ((manage_horizontal_scaling_step exec ig now cfg st cs).events.map
          fun ev => (now, ev)) = [now])) := by
  simp only [manage_horizontal_scaling_step]
  split_ifs with h1 h2 h3
  · exact Or.inl ⟨rfl, rfl⟩
  · refine Or.inr ⟨rfl, should_scale_out_grace h2, ?_⟩
    rcases scale_out_events_shape exec st.members cfg with he | ⟨n, he⟩
    · left; simp [he, scale_out_times]
    · right; simp [he, scale_out_times]
  · exact Or.inl ⟨rfl, rfl⟩
  · exact Or.inl ⟨rfl, rfl⟩

theorem run_horizontal_gap_aux (exec : Cmd → Option String) (ig : ℤ → Bool)
    (cfg : GroupConfig) (hg : 0 ≤ cfg.scale_out_grace_period) :
    ∀ (ticks : List Tick) (st : GroupState),
      List.Chain' (fun a b => cfg.scale_out_grace_period ≤ b - a)
        (scale_out_times (run_horizontal exec ig cfg st ticks)) ∧
      ∀ t0, st.lastAction = some t0 →
        ∀ t ∈ scale_out_times (run_horizontal exec ig cfg st ticks),
          cfg.scale_out_grace_period ≤ t - t0 := by
  intro ticks
  induction ticks with
  | nil =>
    intro st
    refine ⟨by simp [run_horizontal, scale_out_times], ?_⟩
    intro t0 h0 t ht
    simp [run_horizontal, scale_out_times] at ht
  | cons tk rest ih =>
    intro st
    rw [run_horizontal_cons]
    rcases manage_step_cases exec ig tk.time cfg st tk.containers with
      ⟨hst, hsot⟩ | ⟨hlast, hgr, hsot⟩
    · rw [scale_out_times_append, hsot, List.nil_append, hst]
      exact ih st
    · obtain ⟨chainR, forallR⟩ :=
        ih (manage_horizontal_scaling_step exec ig tk.time cfg st tk.containers).state
      have hR := forallR tk.time hlast
      rcases hsot with hsot | hsot
      · rw [scale_out_times_append, hsot, List.nil_append]
        refine ⟨chainR, ?_⟩
        intro t0 h0 t ht
        have h1 := hR t ht
        rw [h0] at hgr
        simp only [Option.getD_some] at hgr
        omega
      · rw [scale_out_times_append, hsot, List.singleton_append]
        constructor
        · refine List.chain'_cons'.mpr ⟨?_, chainR⟩
          intro y hy
          exact hR y (List.mem_of_mem_head? hy)
        · intro t0 h0 t ht
          rw [h0] at hgr
          simp only [Option.getD_some] at hgr
          rcases List.mem_cons.mp ht with rfl | ht'
          · omega
          · have h1 := hR t ht'
            omega

/-- C9: two successive `Scale Out` events of a group are at least
`scale_out_grace_period` seconds apart.  Starting from a fresh group state
(no recorded last action) and running any sequence of ticks — with arbitrary
times, samples and executor outcomes — the timestamps of the emitted
`Scale Out` events are pairwise separated by at least the grace period,
because `should_scale_out` is false whenever `now - last_action` is below
the grace period and `scale_last_action` is set to `now` on every scale-out
attempt. -/
theorem c9_scale_out_grace_respected (exec : Cmd → Option String) (ig : ℤ → Bool)
    (cfg : GroupConfig) (members0 : Finset ℤ) (ticks : List Tick)
    (hg : 0 ≤ cfg.scale_out_grace_period) :
    List.Chain' (fun a b => cfg.scale_out_grace_period ≤ b - a)
      (scale_out_times (run_horizontal exec ig cfg ⟨members0, none⟩ ticks)) ∧
    ∀ metrics now last, now - last < cfg.scale_out_grace_period →
      should_scale_out metrics cfg now last = false :=
  ⟨(run_horizontal_gap_aux exec ig cfg hg ticks ⟨members0, none⟩).1,
   fun _ now last hl => by simp only [should_scale_out, if_pos hl]⟩

/-- A never-ignored predicate. -/
def ig_none : ℤ → Bool := fun _ => false

/-- Three ticks: a hot group at times 0, 100 and 400 with a 300 s grace
period scales out at 0, is blocked at 100, and scales out again at 400. -/
def ticks_c9 : List Tick :=
  [⟨0, [(100, usage_hot)]⟩, ⟨100, [(100, usage_hot)]⟩, ⟨400, [(100, usage_hot)]⟩]

theorem c9_witness :
    scale_out_times (run_horizontal exec_ok ig_none cfgG ⟨{100}, none⟩ ticks_c9) =
      [0, 400] ∧
    List.Chain' (fun a b => cfgG.scale_out_grace_period ≤ b - a)
      (scale_out_times (run_horizontal exec_ok ig_none cfgG ⟨{100}, none⟩ ticks_c9)) :=
  ⟨by decide,
   (c9_scale_out_grace_respected exec_ok ig_none cfgG {100} ticks_c9 (by decide)).1⟩
